import Mathlib

/-!
# Verification of the GitHub PR-merge webhook processor

This file embeds the core of `webhook_processor.py` (class `WebhookProcessor`)
into Lean and proves properties of the embedding.

Modelling conventions:
* JSON values are the inductive `Json` (objects as association chains).
  JSON arrays never occur inside the payloads the claims quantify over; for
  attribute access every non-object value behaves the same (Python raises
  `AttributeError` on `.get`), so the value universe models non-objects by
  `null` / `bool` / `num` / `str`.
* Python `dict.get(key, default)` on a possibly-non-dict value is `pyGet`,
  returning `Except PyErr Json`: a non-object receiver raises
  (`AttributeError`), an object yields the stored value or the default.
* Python truthiness is `pyTruthy`; `str.startswith` / `str.endswith` are
  `pyStartsWith` / `pyEndsWith` (over the character lists).
* The three external collaborators (GitHub files API, OpenAI, Supabase) and
  the filesystem are oracles in `World`; whether each client is configured is
  `Config` (mirroring the constructor's environment-variable checks).
  Outbound interactions are recorded as `Effect`s.
* Fallible Python code (code that can raise) returns `Except PyErr _`;
  a `try/except` that converts every exception to `None` (as in
  `extract_pr_data`) collapses the `Except` to an `Option`.
-/

mutual

inductive Json where
  | null
  | bool (b : Bool)
  | num (n : Int)
  | str (s : String)
  | obj (fields : JFields)
deriving DecidableEq

inductive JFields where
  | nil
  | cons (k : String) (v : Json) (rest : JFields)
deriving DecidableEq

end

instance exceptDecEq {ε α : Type} [DecidableEq ε] [DecidableEq α] :
    DecidableEq (Except ε α) := fun a b =>
  match a, b with
  | .ok x, .ok y =>
      if h : x = y then .isTrue (by rw [h]) else .isFalse (by intro hc; cases hc; exact h rfl)
  | .error x, .error y =>
      if h : x = y then .isTrue (by rw [h]) else .isFalse (by intro hc; cases hc; exact h rfl)
  | .ok _, .error _ => .isFalse (by intro hc; cases hc)
  | .error _, .ok _ => .isFalse (by intro hc; cases hc)

/-- Association-chain lookup inside a JSON object (Python dict indexing has
unique keys; first match wins). -/
def JFields.lookup : JFields → String → Option Json
  | .nil, _ => none
  | .cons k v rest, key => if k = key then some v else rest.lookup key

/-- Convenience constructor: a JSON object from a list of key/value pairs. -/
def jobj : List (String × Json) → Json
  | [] => .obj .nil
  | (k, v) :: rest =>
    match jobj rest with
    | .obj fs => .obj (.cons k v fs)
    | j => j

/-- Whether a JSON value is an object (a Python `dict`). -/
def Json.isObj : Json → Bool
  | .obj _ => true
  | _ => false

/-- The Python exceptions the embedded code can raise. -/
inductive PyErr where
  | attributeError
deriving DecidableEq

/-- Python `value.get(key, default)`: raises `AttributeError` unless `value`
is a dict;  on a dict returns the stored value, or the default when the key
is absent. -/
def pyGet (j : Json) (key : String) (dflt : Json) : Except PyErr Json :=
  match j with
  | .obj fs => .ok ((fs.lookup key).getD dflt)
  | _ => .error .attributeError

/-- Total field access for stating hypotheses: like `pyGet` but a non-object
receiver yields the default instead of raising. -/
def dget (j : Json) (key : String) (dflt : Json) : Json :=
  match j with
  | .obj fs => (fs.lookup key).getD dflt
  | _ => dflt

/-- Spec-side field access: the value of a field of a JSON object, when the
receiver is an object and the field is present. -/
def getField (j : Json) (key : String) : Option Json :=
  match j with
  | .obj fs => fs.lookup key
  | _ => none

/-- Spec-side nested field access along a path of keys. -/
def getPath (j : Json) : List String → Option Json
  | [] => some j
  | k :: ks =>
    match getField j k with
    | some v => getPath v ks
    | none => none

/-- Python truthiness of a JSON value (`bool(x)`). -/
def pyTruthy : Json → Bool
  | .null => false
  | .bool b => b
  | .num n => n != 0
  | .str s => s != ""
  | .obj .nil => false
  | .obj (.cons _ _ _) => true

/-- Python `s.startswith(p)` over the character lists. -/
def pyStartsWith (s p : String) : Bool := p.data.isPrefixOf s.data

/-- Python `s.endswith(p)` over the character lists. -/
def pyEndsWith (s p : String) : Bool := p.data.reverse.isPrefixOf s.data.reverse

/-- `PullRequestData` from `webhook_processor.py`.  Field values stay `Json`:
Python dataclasses perform no runtime type validation, so whatever
`payload.get(...)` produced is stored unchanged (e.g. `None` for a missing
`number`). -/
structure PullRequestData where
  pr_number : Json
  title : Json
  description : Json
  url : Json
  creator : Json
  created_at : Json
  html_url : Json
  repo_owner : Json
  repo_name : Json
deriving DecidableEq

/-- Which external clients the constructor managed to configure (presence of
`OPENAI_API_KEY`, `SUPABASE_URL`/`SUPABASE_KEY`, `GITHUB_TOKEN`) plus the
`save_payload` flag. -/
structure Config where
  openai_client : Bool
  supabase_client : Bool
  github_token : Bool
  save_payload : Bool
deriving DecidableEq

/-- Oracle for the external world: the outcome GitHub's files endpoint would
return (`none` models a transport / HTTP error, which `fetch_pr_files`
converts to `None`), the summary OpenAI would produce (`none` models a failed
call or empty content), the path the filesystem write would yield, and
whether Supabase acknowledges inserts with data. -/
structure World where
  fetchResult : Option (List Json)
  summaryResult : Option String
  savedPath : String
  insertReturnsData : Bool
deriving DecidableEq

/-- A database row: a Python dict with known (string) keys, in insertion
order. -/
abbrev Row : Type := List (String × Json)

/-- Lookup in a row (Python `dict.get` on a dict we built ourselves). -/
def rowGet : Row → String → Option Json
  | [], _ => none
  | (k, v) :: rest, key =>
    if k = key then some v else rowGet rest key

/-- Data passed to a Supabase insert: a single row or a batch. -/
inductive DbPayload where
  | single (row : Row)
  | batch (rows : List Row)
deriving DecidableEq

/-- Externally visible side effects of one invocation. -/
inductive Effect where
  | githubFetch (owner name number : Json)
  | openaiCall (title description : Json)
  | fileSave (path : String)
  | dbInsert (table : String) (data : DbPayload)
deriving DecidableEq

/-- `None`-able strings as JSON column values. -/
def optStr : Option String → Json
  | some s => .str s
  | none => .null

/-- `WebhookProcessor.generate_pr_summary`: without an OpenAI client, log and
return `None` with no call; otherwise one chat-completion call whose outcome
(the trimmed first-choice content, or `None` on failure / empty content) is
the oracle's `summaryResult`. -/
def generate_pr_summary (cfg : Config) (w : World) (pr_data : PullRequestData) :
    Option String × List Effect :=
  if cfg.openai_client = false then (none, [])
  else (w.summaryResult, [Effect.openaiCall pr_data.title pr_data.description])

/-- `WebhookProcessor.save_to_supabase`: no client → `False`, no effect;
falsy data (empty dict / empty list) → `False`, no effect; otherwise one
insert call, `True` iff the store returns data. -/
def save_to_supabase (cfg : Config) (w : World) (table_name : String)
    (data : DbPayload) : Bool × List Effect :=
  if cfg.supabase_client = false then (false, [])
  else
    match data with
    | .single row => if row.isEmpty then (false, []) else
        (w.insertReturnsData, [Effect.dbInsert table_name (.single row)])
    | .batch rows => if rows.isEmpty then (false, []) else
        (w.insertReturnsData, [Effect.dbInsert table_name (.batch rows)])

/-- `WebhookProcessor._build_pr_data_dict`: the dict built from a
`PullRequestData`.  As in the source it carries exactly seven of the nine
dataclass fields — `description` and `url` are not included. -/
def _build_pr_data_dict (pr_data : PullRequestData) : Row :=
  [("pr_number", pr_data.pr_number),
   ("title", pr_data.title),
   ("creator", pr_data.creator),
   ("created_at", pr_data.created_at),
   ("html_url", pr_data.html_url),
   ("repo_owner", pr_data.repo_owner),
   ("repo_name", pr_data.repo_name)]

/-- `WebhookProcessor._build_dbt_model_changes_dict`: one row of the
`dbt_model_changes` table. -/
def _build_dbt_model_changes_dict (model_filename : String) (pr_data : Row)
    (summary : Option String) : Row :=
  [("dbt_model_name", .str model_filename),
   ("pr_html_url", (rowGet pr_data "html_url").getD .null),
   ("ai_summary", optStr summary),
   ("pr_created_at", (rowGet pr_data "created_at").getD .null),
   ("pr_creator", (rowGet pr_data "creator").getD .null)]

/-- The `result` dict assembled by `process_webhook`. -/
structure ProcessResult where
  file_path : Option String
  summary : Option String
  pr_data : Row
  sql_model_files : List String
deriving DecidableEq

/-- `WebhookProcessor._prepare_pr_merge_data`: `None` when `pr_data` is
falsy, else the `pr_data` dict extended with `summary` and `file_path`. -/
def _prepare_pr_merge_data (result_data : ProcessResult) : Option Row :=
  if result_data.pr_data.isEmpty then none
  else some (result_data.pr_data ++
    [("summary", optStr result_data.summary),
     ("file_path", optStr result_data.file_path)])

/-- The body of `WebhookProcessor.extract_pr_data` before its `try/except`
wrapper: every `.get` can raise, the whole computation returns
`None` when `pull_request` is falsy. -/
def extract_pr_data_core (payload : Json) : Except PyErr (Option PullRequestData) := do
  let pr ← pyGet payload "pull_request" (jobj [])
  let repository ← pyGet payload "repository" (jobj [])
  if pyTruthy pr = false then
    pure none
  else do
    let number ← pyGet pr "number" .null
    let title ← pyGet pr "title" (.str "")
    let body ← pyGet pr "body" .null
    let url ← pyGet pr "url" (.str "")
    let user ← pyGet pr "user" (jobj [])
    let creator ← pyGet user "login" (.str "")
    let created_at ← pyGet pr "created_at" (.str "")
    let html_url ← pyGet pr "html_url" (.str "")
    let owner ← pyGet repository "owner" (jobj [])
    let repo_owner ← pyGet owner "login" (.str "")
    let repo_name ← pyGet repository "name" (.str "")
    pure (some
      { pr_number := number
        title := title
        description := if pyTruthy body then body else .str ""
        url := url
        creator := creator
        created_at := created_at
        html_url := html_url
        repo_owner := repo_owner
        repo_name := repo_name })

/-- `WebhookProcessor.extract_pr_data`: the `try/except` converts any raised
exception to `None`, so extraction never raises to its caller. -/
def extract_pr_data (payload : Json) : Option PullRequestData :=
  match extract_pr_data_core payload with
  | .ok r => r
  | .error _ => none

/-- `WebhookProcessor.fetch_pr_files`: without a GitHub token, `None` and no
request; otherwise one authenticated GET whose outcome (parsed JSON array on
success, `None` on any request error) is the oracle's `fetchResult`. -/
def fetch_pr_files (cfg : Config) (w : World) (repo_owner repo_name pr_number : Json) :
    Option (List Json) × List Effect :=
  if cfg.github_token = false then (none, [])
  else (w.fetchResult, [Effect.githubFetch repo_owner repo_name pr_number])

/-- `WebhookProcessor.filter_sql_model_files`: the list comprehension keeping
`file.get('filename', '')` for entries passing
`startswith('models/') and endswith('.sql')`.  A non-dict entry, or a
non-string `filename` value, raises `AttributeError` at that entry. -/
def filter_sql_model_files : List Json → Except PyErr (List String)
  | [] => .ok []
  | f :: rest =>
    match pyGet f "filename" (.str "") with
    | .error e => .error e
    | .ok (.str s) =>
      match filter_sql_model_files rest with
      | .error e => .error e
      | .ok tail =>
        if pyStartsWith s "models/" && pyEndsWith s ".sql" then .ok (s :: tail)
        else .ok tail
    | .ok _ => .error .attributeError

/-- `WebhookProcessor._save_to_database`: skipped entirely without a Supabase
client; otherwise the `github_pr_merge` single-row insert (when
`_prepare_pr_merge_data` yields a dict) followed by one batch insert to
`dbt_model_changes` when the filtered file list is non-empty.  Only the
effects matter: the source discards both `save_to_supabase` results. -/
def _save_to_database (cfg : Config) (w : World) (result : ProcessResult) :
    List Effect :=
  if cfg.supabase_client = false then []
  else
    (match _prepare_pr_merge_data result with
     | some row => (save_to_supabase cfg w "github_pr_merge" (.single row)).2
     | none => []) ++
    (if result.sql_model_files.isEmpty then []
     else (save_to_supabase cfg w "dbt_model_changes"
        (.batch (result.sql_model_files.map
          (fun f => _build_dbt_model_changes_dict f result.pr_data result.summary)))).2)

/-- The gate at the start of `process_webhook` (also lines 61–66 of
`function_app.py`): `base_branch` is read first, then
`action == 'closed' and pull_request.merged is True and
base_branch in ['main', 'master']` with Python short-circuiting. -/
def isMergeToMain (payload : Json) : Except PyErr Bool :=
  match pyGet payload "pull_request" (jobj []) with
  | .error e => .error e
  | .ok pr =>
    match pyGet pr "base" (jobj []) with
    | .error e => .error e
    | .ok base =>
      match pyGet base "ref" (.str "") with
      | .error e => .error e
      | .ok base_branch =>
        match pyGet payload "action" .null with
        | .error e => .error e
        | .ok action =>
          if action ≠ Json.str "closed" then .ok false
          else
            match pyGet payload "pull_request" (jobj []) with
            | .error e => .error e
            | .ok pr2 =>
              match pyGet pr2 "merged" .null with
              | .error e => .error e
              | .ok merged =>
                if merged ≠ Json.bool true then .ok false
                else .ok (base_branch = Json.str "main" ∨
                          base_branch = Json.str "master" : Bool)

/-- The `pr_files` fetch followed by `if pr_files:` and the filter: the list
of SQL model filenames `process_webhook` ends up with, or the exception the
filter raised.  A failed or skipped fetch leaves the list empty. -/
def sqlFilesOutcome (cfg : Config) (w : World) (pr_data : PullRequestData) :
    Except PyErr (List String) :=
  match (fetch_pr_files cfg w pr_data.repo_owner pr_data.repo_name pr_data.pr_number).1 with
  | some files => if files.isEmpty then .ok [] else filter_sql_model_files files
  | none => .ok []

/-- The summary `process_webhook` stores: only with an OpenAI client is
`generate_pr_summary` called, and only a truthy (non-empty) summary is kept
(`if summary:`). -/
def acceptedSummary (cfg : Config) (w : World) (pr_data : PullRequestData) :
    Option String :=
  match (if cfg.openai_client then generate_pr_summary cfg w pr_data else (none, [])).1 with
  | some s => if s = "" then none else some s
  | none => none

/-- The `result` dict as assembled by `process_webhook` for an accepted
payload: `file_path` set only when payload saving is enabled, the kept
summary, the seven-field `pr_data` dict, and the filtered filenames. -/
def acceptedResult (cfg : Config) (w : World) (pr_data : PullRequestData)
    (sql_model_files : List String) : ProcessResult :=
  { file_path := if cfg.save_payload then some w.savedPath else none
    summary := acceptedSummary cfg w pr_data
    pr_data := _build_pr_data_dict pr_data
    sql_model_files := sql_model_files }

/-- The effects of the accepted pipeline, in source order: the files fetch,
the OpenAI call (when configured), the payload file write (when enabled),
then the database writes. -/
def acceptedEffects (cfg : Config) (w : World) (pr_data : PullRequestData)
    (result : ProcessResult) : List Effect :=
  (fetch_pr_files cfg w pr_data.repo_owner pr_data.repo_name pr_data.pr_number).2 ++
  (if cfg.openai_client then generate_pr_summary cfg w pr_data else (none, [])).2 ++
  (if cfg.save_payload then [Effect.fileSave w.savedPath] else []) ++
  _save_to_database cfg w result

/-- The part of `process_webhook` after the gate and a successful extraction:
fetch + filter the changed files (an exception from the filter propagates and
aborts the rest), optionally generate the summary, optionally save the
payload to disk, assemble the `result` dict and run `_save_to_database`. -/
def process_accepted (cfg : Config) (w : World) (pr_data : PullRequestData) :
    Except PyErr (ProcessResult × List Effect) :=
  match sqlFilesOutcome cfg w pr_data with
  | .error e => .error e
  | .ok sql_model_files =>
    let result := acceptedResult cfg w pr_data sql_model_files
    .ok (result, acceptedEffects cfg w pr_data result)

/-- `WebhookProcessor.process_webhook`: gate, extract, then the accepted
pipeline.  The returned pair is the result value together with the externally
visible effects of the invocation. -/
def process_webhook (cfg : Config) (w : World) (payload : Json) :
    Except PyErr (Option ProcessResult × List Effect) :=
  match isMergeToMain payload with
  | .error e => .error e
  | .ok false => .ok (none, [])
  | .ok true =>
    match extract_pr_data payload with
    | none => .ok (none, [])
    | some pr_data =>
      match process_accepted cfg w pr_data with
      | .error e => .error e
      | .ok (result, effs) => .ok (some result, effs)

/-- Recogniser for insert effects against a given table. -/
def isInsertTo (table : String) : Effect → Bool
  | .dbInsert t _ => t = table
  | _ => false

/-- Modelled from the spec (gate contract, claim C1): the payload's `action`
field equals `"closed"`, its `pull_request.merged` field is exactly the
boolean `true`, and `pull_request.base.ref` is the literal string `"main"` or
`"master"`. -/
def gateSpec (payload : Json) : Prop :=
  getField payload "action" = some (.str "closed") ∧
  getPath payload ["pull_request", "merged"] = some (.bool true) ∧
  (getPath payload ["pull_request", "base", "ref"] = some (.str "main") ∨
   getPath payload ["pull_request", "base", "ref"] = some (.str "master"))

instance gateSpecDecidable (payload : Json) : Decidable (gateSpec payload) := by
  unfold gateSpec; infer_instance

/-- Modelled from the spec (filter contract, claim C5): keep exactly the
entries whose filename starts with `models/` and ends with `.sql`, in source
order. -/
def specFilterSql (files : List Json) : List String :=
  files.filterMap (fun f =>
    match getField f "filename" with
    | some (.str s) =>
      if pyStartsWith s "models/" && pyEndsWith s ".sql" then some s else none
    | _ => none)

/-- A GitHub files-API entry as actually delivered: a JSON object whose
`filename` access (with default `''`) yields a string. -/
def fileWF (f : Json) : Bool :=
  f.isObj && (match dget f "filename" (.str "") with
              | .str _ => true
              | _ => false)

/-- The fetch oracle only ever delivers well-formed file entries (the GitHub
endpoint returns an array of objects with string `filename`s). -/
def oracleFilesWF (w : World) : Bool :=
  match w.fetchResult with
  | some files => files.all fileWF
  | none => true

/-! ## Helper lemmas -/

lemma pyGet_obj (fs : JFields) (key : String) (dflt : Json) :
    pyGet (Json.obj fs) key dflt = .ok ((fs.lookup key).getD dflt) := rfl

lemma jobj_nil : jobj [] = Json.obj .nil := rfl

/-- The filter over well-formed file entries never raises and computes the
spec-side filter. -/
lemma filter_sql_wf (files : List Json) (h : files.all fileWF = true) :
    filter_sql_model_files files = .ok (specFilterSql files) := by
  induction files with
  | nil => rfl
  | cons f rest ih =>
    rw [List.all_cons, Bool.and_eq_true] at h
    obtain ⟨hf, hrest⟩ := h
    unfold fileWF at hf
    rw [Bool.and_eq_true] at hf
    obtain ⟨hobj, hstr⟩ := hf
    cases f with
    | null => simp [Json.isObj] at hobj
    | bool b => simp [Json.isObj] at hobj
    | num n => simp [Json.isObj] at hobj
    | str s => simp [Json.isObj] at hobj
    | obj fs =>
      simp only [dget] at hstr
      unfold filter_sql_model_files specFilterSql
      simp only [pyGet_obj, getField]
      rcases hfn : JFields.lookup fs "filename" with _ | u
      · rw [hfn] at hstr
        simp +decide [ih hrest, specFilterSql, List.filterMap_cons, getField, hfn]
      · rw [hfn] at hstr
        cases u with
        | str s =>
          by_cases hc : pyStartsWith s "models/" = true ∧ pyEndsWith s ".sql" = true
          · simp [ih hrest, specFilterSql, List.filterMap_cons, getField, hfn, hc]
          · simp [ih hrest, specFilterSql, List.filterMap_cons, getField, hfn, hc]
        | null => simp at hstr
        | bool b => simp at hstr
        | num n => simp at hstr
        | obj g => simp at hstr

/-- Inversion of a successful extraction: the payload is an object whose
`pull_request` is a truthy (non-empty) object, and the directly-read record
fields are the corresponding `get` results. -/
lemma extract_some_inv (payload : Json) (pr : PullRequestData)
    (h : extract_pr_data payload = some pr) :
    ∃ fs g, payload = Json.obj fs ∧
      JFields.lookup fs "pull_request" = some (Json.obj g) ∧
      pyTruthy (Json.obj g) = true ∧
      pr.pr_number = (JFields.lookup g "number").getD .null ∧
      pr.title = (JFields.lookup g "title").getD (.str "") ∧
      pr.description = (if pyTruthy ((JFields.lookup g "body").getD .null)
                        then (JFields.lookup g "body").getD .null else .str "") ∧
      pr.created_at = (JFields.lookup g "created_at").getD (.str "") ∧
      pr.html_url = (JFields.lookup g "html_url").getD (.str "") := by
  unfold extract_pr_data at h
  cases hcore : extract_pr_data_core payload with
  | error e => rw [hcore] at h; cases h
  | ok r =>
    rw [hcore] at h
    subst h
    cases payload with
    | null => simp [extract_pr_data_core, pyGet, bind, Except.bind] at hcore
    | bool b => simp [extract_pr_data_core, pyGet, bind, Except.bind] at hcore
    | num n => simp [extract_pr_data_core, pyGet, bind, Except.bind] at hcore
    | str s => simp [extract_pr_data_core, pyGet, bind, Except.bind] at hcore
    | obj fs =>
      refine ⟨fs, ?_⟩
      simp only [extract_pr_data_core, pyGet_obj, bind, Except.bind, pure, Except.pure] at hcore
      rcases hpr : JFields.lookup fs "pull_request" with _ | v
      · rw [hpr] at hcore
        simp [jobj, pyTruthy] at hcore
      · rw [hpr] at hcore
        simp only [Option.getD_some] at hcore
        cases ht : pyTruthy v with
        | false => rw [ht] at hcore; simp at hcore
        | true =>
          rw [ht] at hcore
          simp only [Bool.true_eq_false, if_false, reduceIte] at hcore
          cases v with
          | null => simp [pyTruthy] at ht
          | bool b => simp [pyGet] at hcore
          | num n => simp [pyGet] at hcore
          | str s => simp [pyGet] at hcore
          | obj g =>
            refine ⟨g, rfl, rfl, ht, ?_⟩
            simp only [pyGet_obj] at hcore
            split at hcore
            · cases hcore
            · split at hcore
              · cases hcore
              · split at hcore
                · cases hcore
                · split at hcore
                  · cases hcore
                  · simp only [Except.ok.injEq, Option.some.injEq] at hcore
                    subst hcore
                    exact ⟨rfl, rfl, rfl, rfl, rfl⟩

/-- Inversion of a successful accepted pipeline. -/
lemma process_accepted_ok_inv (cfg : Config) (w : World) (pr : PullRequestData)
    (res : ProcessResult) (effs : List Effect)
    (h : process_accepted cfg w pr = .ok (res, effs)) :
    ∃ l, sqlFilesOutcome cfg w pr = .ok l ∧
      res = acceptedResult cfg w pr l ∧ effs = acceptedEffects cfg w pr res := by
  unfold process_accepted at h
  split at h
  · cases h
  · rename_i l heq
    cases h
    exact ⟨l, heq, rfl, rfl⟩

/-- With a well-formed fetch oracle the filter never raises, so the accepted
pipeline always succeeds. -/
lemma sqlFilesOutcome_ok_of_wf (cfg : Config) (w : World) (pr : PullRequestData)
    (hwf : oracleFilesWF w = true) :
    ∃ l, sqlFilesOutcome cfg w pr = .ok l := by
  unfold sqlFilesOutcome fetch_pr_files
  cases ht : cfg.github_token with
  | false => simp
  | true =>
    simp only [Bool.true_eq_false, if_false, reduceIte]
    unfold oracleFilesWF at hwf
    cases hf : w.fetchResult with
    | none => simp
    | some files =>
      rw [hf] at hwf
      cases he : files.isEmpty with
      | true => simp [he]
      | false => exact ⟨specFilterSql files, by simp [he, filter_sql_wf files hwf]⟩

/-- Inversion of a successful `process_webhook` run with a present result. -/
lemma process_webhook_ok_some_inv (cfg : Config) (w : World) (payload : Json)
    (res : ProcessResult) (effs : List Effect)
    (h : process_webhook cfg w payload = .ok (some res, effs)) :
    isMergeToMain payload = .ok true ∧
    ∃ pr, extract_pr_data payload = some pr ∧
      process_accepted cfg w pr = .ok (res, effs) := by
  unfold process_webhook at h
  split at h
  · cases h
  · cases h
  · rename_i hgate
    split at h
    · cases h
    · rename_i pr hex
      split at h
      · cases h
      · rename_i r e hacc
        cases h
        exact ⟨hgate, pr, hex, hacc⟩

/-- The fetch step contributes no insert effect. -/
lemma fetch_no_insert (cfg : Config) (w : World) (a b c : Json) (t : String) :
    ((fetch_pr_files cfg w a b c).2).filter (isInsertTo t) = [] := by
  unfold fetch_pr_files
  split <;> simp [isInsertTo]

/-- The summary step contributes no insert effect. -/
lemma summary_no_insert (cfg : Config) (w : World) (pr : PullRequestData) (t : String) :
    ((if cfg.openai_client then generate_pr_summary cfg w pr
      else (none, [])).2).filter (isInsertTo t) = [] := by
  cases ho : cfg.openai_client <;> simp [generate_pr_summary, isInsertTo, ho]

/-- The payload-save step contributes no insert effect. -/
lemma save_no_insert (cfg : Config) (w : World) (t : String) :
    ((if cfg.save_payload then [Effect.fileSave w.savedPath]
      else ([] : List Effect))).filter (isInsertTo t) = [] := by
  split <;> simp [isInsertTo]

/-- With a database client and a truthy `pr_data` dict, the database step's
`github_pr_merge` inserts are exactly one single-row insert of `pr_data`
extended with `summary` and `file_path`. -/
lemma save_db_merge_filter (cfg : Config) (w : World) (res : ProcessResult)
    (hdb : cfg.supabase_client = true) (hne : res.pr_data.isEmpty = false) :
    (_save_to_database cfg w res).filter (isInsertTo "github_pr_merge") =
      [Effect.dbInsert "github_pr_merge" (.single (res.pr_data ++
        [("summary", optStr res.summary), ("file_path", optStr res.file_path)]))] := by
  obtain ⟨fp, sm, pd, sq⟩ := res
  simp only at hne ⊢
  unfold _save_to_database _prepare_pr_merge_data save_to_supabase
  rw [hdb, hne]
  simp only [Bool.true_eq_false, if_false, reduceIte, List.filter_append]
  cases pd with
  | nil => cases hne
  | cons y ys =>
    cases sq with
    | nil => simp +decide [isInsertTo]
    | cons z zs => simp +decide [isInsertTo]

/-- With a database client, the database step's `dbt_model_changes` inserts
are exactly one batch insert (one row per filtered filename) when the list is
non-empty, and nothing when it is empty. -/
lemma save_db_models_filter (cfg : Config) (w : World) (res : ProcessResult)
    (hdb : cfg.supabase_client = true) :
    (_save_to_database cfg w res).filter (isInsertTo "dbt_model_changes") =
      if res.sql_model_files.isEmpty then []
      else [Effect.dbInsert "dbt_model_changes" (.batch (res.sql_model_files.map
        (fun f => _build_dbt_model_changes_dict f res.pr_data res.summary)))] := by
  obtain ⟨fp, sm, pd, sq⟩ := res
  unfold _save_to_database _prepare_pr_merge_data save_to_supabase
  rw [hdb]
  simp only [Bool.true_eq_false, if_false, reduceIte, List.filter_append]
  cases pd with
  | nil =>
    cases sq with
    | nil => simp +decide [isInsertTo]
    | cons z zs => simp +decide [isInsertTo]
  | cons y ys =>
    cases sq with
    | nil => simp +decide [isInsertTo]
    | cons z zs => simp +decide [isInsertTo]

/-! ## Concrete sample inputs -/

/-- A full merge-to-main webhook payload (the spec's end-to-end scenario). -/
def samplePayload : Json := jobj
  [("action", .str "closed"),
   ("pull_request", jobj
     [("merged", .bool true),
      ("base", jobj [("ref", .str "main")]),
      ("number", .num 42),
      ("title", .str "Add model"),
      ("body", .str "desc"),
      ("url", .str "https://api.github.com/repos/org/repo/pulls/42"),
      ("user", jobj [("login", .str "alice")]),
      ("created_at", .str "2025-10-02T17:58:04Z"),
      ("html_url", .str "https://github.com/org/repo/pull/42")]),
   ("repository", jobj
     [("owner", jobj [("login", .str "org")]),
      ("name", .str "repo")])]

/-- The record extracted from `samplePayload`. -/
def samplePR : PullRequestData :=
  { pr_number := .num 42
    title := .str "Add model"
    description := .str "desc"
    url := .str "https://api.github.com/repos/org/repo/pulls/42"
    creator := .str "alice"
    created_at := .str "2025-10-02T17:58:04Z"
    html_url := .str "https://github.com/org/repo/pull/42"
    repo_owner := .str "org"
    repo_name := .str "repo" }

/-- Every client configured, payload saving on. -/
def sampleConfig : Config :=
  { openai_client := true, supabase_client := true,
    github_token := true, save_payload := true }

/-- All external calls succeed: two changed files (one SQL model), a
summary, a file path, acknowledged inserts. -/
def sampleWorld : World :=
  { fetchResult := some [jobj [("filename", .str "models/a.sql")],
                         jobj [("filename", .str "README.md")]]
    summaryResult := some "A summary"
    savedPath := "webhooks/webhook_payload_x.json"
    insertReturnsData := true }

/-- The row the sample run writes to the `github_pr_merge` table. -/
def sampleMergeRow : Row :=
  _build_pr_data_dict samplePR ++
  [("summary", .str "A summary"), ("file_path", .str "webhooks/webhook_payload_x.json")]

/-- The result assembled by the sample run. -/
def sampleResult : ProcessResult :=
  { file_path := some "webhooks/webhook_payload_x.json"
    summary := some "A summary"
    pr_data := _build_pr_data_dict samplePR
    sql_model_files := ["models/a.sql"] }

/-- The effects of the sample run, in order. -/
def sampleEffects : List Effect :=
  [.githubFetch (.str "org") (.str "repo") (.num 42),
   .openaiCall (.str "Add model") (.str "desc"),
   .fileSave "webhooks/webhook_payload_x.json",
   .dbInsert "github_pr_merge" (.single sampleMergeRow),
   .dbInsert "dbt_model_changes"
     (.batch [_build_dbt_model_changes_dict "models/a.sql"
       (_build_pr_data_dict samplePR) (some "A summary")])]

lemma sample_extract : extract_pr_data samplePayload = some samplePR := by decide

lemma sample_run :
    process_webhook sampleConfig sampleWorld samplePayload =
      .ok (some sampleResult, sampleEffects) := by decide

/-! ## Claims -/

/-- C1: the gate evaluated at the start of `process_webhook` returns `True`
exactly when the payload's `action` field equals `"closed"`, its
`pull_request.merged` field is exactly the boolean `true`, and
`pull_request.base.ref` is one of the literal strings `"main"` or
`"master"`. -/
theorem gate_matches_spec (payload : Json) :
    isMergeToMain payload = Except.ok true ↔ gateSpec payload := by
  cases payload with
  | null => simp [isMergeToMain, pyGet, gateSpec, getField]
  | bool b => simp [isMergeToMain, pyGet, gateSpec, getField]
  | num n => simp [isMergeToMain, pyGet, gateSpec, getField]
  | str s => simp [isMergeToMain, pyGet, gateSpec, getField]
  | obj fs =>
    simp only [isMergeToMain, pyGet, gateSpec, getField, getPath]
    rcases hpr : JFields.lookup fs "pull_request" with _ | v
    · simp [hpr, jobj, JFields.lookup]
    · cases v with
      | null => simp [hpr]
      | bool b => simp [hpr]
      | num n => simp [hpr]
      | str s => simp [hpr]
      | obj g =>
        simp only [hpr, Option.getD]
        rcases hbase : JFields.lookup g "base" with _ | b
        · rcases hact : JFields.lookup fs "action" with _ | a
          · simp [hpr, hbase, hact, jobj, JFields.lookup]
          · by_cases ha : a = Json.str "closed"
            · subst ha
              rcases hmer : JFields.lookup g "merged" with _ | m
              · simp [hpr, hbase, hact, hmer, jobj, JFields.lookup]
              · by_cases hm : m = Json.bool true
                · subst hm
                  simp [hpr, hbase, hact, hmer, jobj, JFields.lookup]
                · simp [hpr, hbase, hact, hmer, hm, jobj, JFields.lookup]
            · simp [hpr, hbase, hact, ha, jobj, JFields.lookup]
        · cases b with
          | null => simp [hpr, hbase]
          | bool x => simp [hpr, hbase]
          | num x => simp [hpr, hbase]
          | str x => simp [hpr, hbase]
          | obj bb =>
            rcases hact : JFields.lookup fs "action" with _ | a
            · simp [hpr, hbase, hact, jobj, JFields.lookup]
            · by_cases ha : a = Json.str "closed"
              · subst ha
                rcases hmer : JFields.lookup g "merged" with _ | m
                · simp [hpr, hbase, hact, hmer, jobj, JFields.lookup]
                · by_cases hm : m = Json.bool true
                  · subst hm
                    simp only [hpr, hbase, hact, hmer, jobj, JFields.lookup]
                    rcases href : JFields.lookup bb "ref" with _ | r
                    · simp +decide [href]
                    · simp [href]
                  · simp [hpr, hbase, hact, hmer, hm, jobj, JFields.lookup]
              · simp [hpr, hbase, hact, ha, jobj, JFields.lookup]

/-- A non-merge payload (`action` is `"reopened"`) whose `pull_request` field
is present but `null`. -/
def badActionPayload : Json :=
  jobj [("action", .str "reopened"), ("pull_request", Json.null)]

/-- C4 counterexample: on a payload with `action != "closed"` whose
`pull_request` field is `null`, `process_webhook` does not return absent — it
raises `AttributeError` while evaluating the gate. -/
theorem process_raises_on_nonmerge_null_pull_request :
    getField badActionPayload "action" = some (.str "reopened") ∧
    process_webhook sampleConfig sampleWorld badActionPayload =
      .error .attributeError := by decide

/-- C4 (amended): for every payload on which the gate evaluates without
raising and returns `False`, `process_webhook` returns absent immediately
with no extraction, no network call and no persistence effect. -/
theorem gate_false_no_effects (cfg : Config) (w : World) (payload : Json)
    (h : isMergeToMain payload = .ok false) :
    process_webhook cfg w payload = .ok (none, []) := by
  simp [process_webhook, h]

/-- `samplePayload` with the base branch replaced by `develop`. -/
def develPayload : Json := jobj
  [("action", .str "closed"),
   ("pull_request", jobj
     [("merged", .bool true),
      ("base", jobj [("ref", .str "develop")]),
      ("number", .num 42),
      ("title", .str "Add model"),
      ("body", .str "desc"),
      ("user", jobj [("login", .str "alice")])]),
   ("repository", jobj
     [("owner", jobj [("login", .str "org")]),
      ("name", .str "repo")])]

theorem gate_false_no_effects_witness :
    process_webhook sampleConfig sampleWorld develPayload = .ok (none, []) :=
  gate_false_no_effects sampleConfig sampleWorld develPayload (by decide)

/-- C5: `filter_sql_model_files` keeps exactly the entries whose filename
starts with `models/` and ends with `.sql`, in source order. -/
theorem filter_keeps_models_sql_in_order (files : List Json)
    (h : files.all fileWF = true) :
    filter_sql_model_files files = .ok (specFilterSql files) :=
  filter_sql_wf files h

/-- The files list of the claim's concrete instance. -/
def specFiles : List Json :=
  [jobj [("filename", .str "models/a.sql")],
   jobj [("filename", .str "README.md")],
   jobj [("filename", .str "models/sub/b.sql")]]

theorem filter_keeps_models_sql_in_order_witness :
    filter_sql_model_files specFiles = .ok ["models/a.sql", "models/sub/b.sql"] :=
  (filter_keeps_models_sql_in_order specFiles (by decide)).trans (by decide)

/-- C3 counterexample: on the payload `{"pull_request": null}` — a JSON
object whose nested `pull_request` field is present but `null` — the gate
raises `AttributeError` instead of treating the field as empty/false. -/
theorem gate_raises_on_null_pull_request :
    isMergeToMain (jobj [("pull_request", Json.null)]) =
      .error .attributeError := by decide

/-- C3 (amended): the gate never raises on a payload object provided every
present field along the accessed paths is itself an object: when
`pull_request` (if present) and `pull_request.base` (if present) are JSON
objects, missing nested fields are defaulted and the gate returns a
boolean. -/
theorem gate_never_raises_on_object_fields (payload : Json)
    (h0 : payload.isObj = true)
    (h1 : (dget payload "pull_request" (jobj [])).isObj = true)
    (h2 : (dget (dget payload "pull_request" (jobj [])) "base" (jobj [])).isObj = true) :
    ∃ b, isMergeToMain payload = .ok b := by
  cases payload with
  | null => simp [Json.isObj] at h0
  | bool b => simp [Json.isObj] at h0
  | num n => simp [Json.isObj] at h0
  | str s => simp [Json.isObj] at h0
  | obj fs =>
    simp only [dget] at h1 h2
    unfold isMergeToMain
    simp only [pyGet_obj]
    rcases hpr : (JFields.lookup fs "pull_request").getD (jobj []) with _ | b | n | s | g
    · rw [hpr] at h1; simp [Json.isObj] at h1
    · rw [hpr] at h1; simp [Json.isObj] at h1
    · rw [hpr] at h1; simp [Json.isObj] at h1
    · rw [hpr] at h1; simp [Json.isObj] at h1
    · rw [hpr] at h2
      simp only [pyGet_obj, dget] at h2 ⊢
      rcases hbase : (JFields.lookup g "base").getD (jobj []) with _ | b | n | s | bb
      · rw [hbase] at h2; simp [Json.isObj] at h2
      · rw [hbase] at h2; simp [Json.isObj] at h2
      · rw [hbase] at h2; simp [Json.isObj] at h2
      · rw [hbase] at h2; simp [Json.isObj] at h2
      · simp only [pyGet_obj]
        split
        · exact ⟨false, rfl⟩
        · split
          · exact ⟨false, rfl⟩
          · exact ⟨_, rfl⟩

theorem gate_never_raises_on_object_fields_witness :
    ∃ b, isMergeToMain samplePayload = .ok b :=
  gate_never_raises_on_object_fields samplePayload (by decide) (by decide) (by decide)

/-- C9: when the `pull_request` object is missing or empty, extraction
returns absent; and when the gate passed but extraction came back absent,
`process_webhook` returns absent. -/
theorem missing_pull_request_gives_absent :
    (∀ payload : Json, payload.isObj = true →
      (getField payload "pull_request" = none ∨
       getField payload "pull_request" = some (jobj [])) →
      extract_pr_data payload = none) ∧
    (∀ (cfg : Config) (w : World) (payload : Json),
      isMergeToMain payload = .ok true →
      extract_pr_data payload = none →
      process_webhook cfg w payload = .ok (none, [])) := by
  constructor
  · intro payload h0 h1
    cases payload with
    | null => simp [Json.isObj] at h0
    | bool b => simp [Json.isObj] at h0
    | num n => simp [Json.isObj] at h0
    | str s => simp [Json.isObj] at h0
    | obj fs =>
      simp only [getField] at h1
      unfold extract_pr_data extract_pr_data_core
      rcases h1 with h1 | h1 <;>
        simp [h1, pyGet_obj, jobj, pyTruthy, bind, Except.bind, pure, Except.pure]
  · intro cfg w payload hg hx
    simp [process_webhook, hg, hx]

theorem missing_pull_request_gives_absent_witness :
    extract_pr_data (jobj [("action", .str "closed")]) = none ∧
    process_webhook sampleConfig sampleWorld
      (jobj [("action", .str "closed"),
             ("pull_request", jobj
               [("merged", .bool true),
                ("base", jobj [("ref", .str "main")]),
                ("user", Json.null)])]) = .ok (none, []) :=
  ⟨missing_pull_request_gives_absent.1 (jobj [("action", .str "closed")])
      (by decide) (Or.inl (by decide)),
   missing_pull_request_gives_absent.2 sampleConfig sampleWorld
      (jobj [("action", .str "closed"),
             ("pull_request", jobj
               [("merged", .bool true),
                ("base", jobj [("ref", .str "main")]),
                ("user", Json.null)])]) (by decide) (by decide)⟩

/-- C8: for a merge-to-main payload whose `pull_request.body` is `null`, the
extracted description is the empty string, never null. -/
theorem null_body_empty_description (payload : Json) (pr : PullRequestData)
    (hg : isMergeToMain payload = .ok true)
    (hx : extract_pr_data payload = some pr)
    (hb : getPath payload ["pull_request", "body"] = some Json.null) :
    pr.description = .str "" := by
  obtain ⟨fs, g, hp, hpr, ht, hnum, htit, hdesc, hcr, hhtml⟩ :=
    extract_some_inv payload pr hx
  subst hp
  simp only [getPath, getField, hpr] at hb
  rcases hbody : JFields.lookup g "body" with _ | v
  · rw [hbody] at hb; cases hb
  · rw [hbody] at hb
    simp only [Option.some.injEq] at hb
    subst hb
    rw [hbody] at hdesc
    simpa [pyTruthy] using hdesc

/-- `samplePayload` with a `null` PR body. -/
def nullBodyPayload : Json := jobj
  [("action", .str "closed"),
   ("pull_request", jobj
     [("merged", .bool true),
      ("base", jobj [("ref", .str "main")]),
      ("number", .num 42),
      ("title", .str "Add model"),
      ("body", Json.null),
      ("user", jobj [("login", .str "alice")]),
      ("created_at", .str "2025-10-02T17:58:04Z"),
      ("html_url", .str "https://github.com/org/repo/pull/42")]),
   ("repository", jobj
     [("owner", jobj [("login", .str "org")]),
      ("name", .str "repo")])]

/-- The record extracted from `nullBodyPayload`. -/
def nullBodyPR : PullRequestData :=
  { pr_number := .num 42
    title := .str "Add model"
    description := .str ""
    url := .str ""
    creator := .str "alice"
    created_at := .str "2025-10-02T17:58:04Z"
    html_url := .str "https://github.com/org/repo/pull/42"
    repo_owner := .str "org"
    repo_name := .str "repo" }

theorem null_body_empty_description_witness :
    PullRequestData.description nullBodyPR = .str "" :=
  null_body_empty_description nullBodyPayload nullBodyPR
    (by decide) (by decide) (by decide)

/-- C7: with no OpenAI client configured, an accepted webhook still yields a
present result whose summary is absent and no exception, and the summary
generator returns absent immediately with no outbound call. -/
theorem no_llm_still_succeeds (cfg : Config) (w : World) (payload : Json)
    (pr : PullRequestData)
    (hg : isMergeToMain payload = .ok true)
    (hx : extract_pr_data payload = some pr)
    (hai : cfg.openai_client = false)
    (hwf : oracleFilesWF w = true) :
    (∃ res effs, process_webhook cfg w payload = .ok (some res, effs) ∧
      res.summary = none) ∧
    generate_pr_summary cfg w pr = (none, []) := by
  obtain ⟨l, hsql⟩ := sqlFilesOutcome_ok_of_wf cfg w pr hwf
  refine ⟨⟨acceptedResult cfg w pr l,
           acceptedEffects cfg w pr (acceptedResult cfg w pr l), ?_, ?_⟩, ?_⟩
  · simp [process_webhook, hg, hx, process_accepted, hsql]
  · simp [acceptedResult, acceptedSummary, hai]
  · simp [generate_pr_summary, hai]

/-- `sampleConfig` without the OpenAI credential. -/
def noLlmConfig : Config :=
  { openai_client := false, supabase_client := true,
    github_token := true, save_payload := true }

theorem no_llm_still_succeeds_witness :
    (∃ res effs, process_webhook noLlmConfig sampleWorld samplePayload =
        .ok (some res, effs) ∧ res.summary = none) ∧
    generate_pr_summary noLlmConfig sampleWorld samplePR = (none, []) :=
  no_llm_still_succeeds noLlmConfig sampleWorld samplePayload samplePR
    (by decide) (by decide) rfl (by decide)

/-- C2 counterexample: on an accepted sample webhook the row written to the
`github_pr_merge` table does not carry all nine record fields — the record
has a description and a URL, but the row has no `description` or `url`
key. -/
theorem pr_merge_row_lacks_description_url :
    process_webhook sampleConfig sampleWorld samplePayload =
      .ok (some sampleResult, sampleEffects) ∧
    sampleEffects.filter (isInsertTo "github_pr_merge") =
      [Effect.dbInsert "github_pr_merge" (.single sampleMergeRow)] ∧
    extract_pr_data samplePayload = some samplePR ∧
    samplePR.description = .str "desc" ∧
    samplePR.url = .str "https://api.github.com/repos/org/repo/pulls/42" ∧
    rowGet sampleMergeRow "description" = none ∧
    rowGet sampleMergeRow "url" = none := by decide

/-- C2 (amended): for every accepted webhook, the single row written to the
`github_pr_merge` table carries exactly seven of the nine record fields —
`pr_number`, `title`, `creator`, `created_at`, `html_url`, `repo_owner`,
`repo_name` (omitting `description` and `url`) — plus the summary and the
optional saved-file-path. -/
theorem pr_merge_row_seven_fields (cfg : Config) (w : World) (payload : Json)
    (res : ProcessResult) (effs : List Effect)
    (hp : process_webhook cfg w payload = .ok (some res, effs))
    (hdb : cfg.supabase_client = true) :
    ∃ pr, extract_pr_data payload = some pr ∧
      effs.filter (isInsertTo "github_pr_merge") =
        [Effect.dbInsert "github_pr_merge" (.single (_build_pr_data_dict pr ++
          [("summary", optStr res.summary), ("file_path", optStr res.file_path)]))] ∧
      ((_build_pr_data_dict pr ++
          [("summary", optStr res.summary), ("file_path", optStr res.file_path)]).map
        Prod.fst =
        ["pr_number", "title", "creator", "created_at", "html_url",
         "repo_owner", "repo_name", "summary", "file_path"]) := by
  obtain ⟨hg, pr, hx, hacc⟩ := process_webhook_ok_some_inv cfg w payload res effs hp
  obtain ⟨l, hsql, hres, heffs⟩ := process_accepted_ok_inv cfg w pr res effs hacc
  have hpd : res.pr_data = _build_pr_data_dict pr := by
    rw [hres]; rfl
  refine ⟨pr, hx, ?_, rfl⟩
  subst heffs
  unfold acceptedEffects
  simp only [List.filter_append, fetch_no_insert, summary_no_insert,
    save_no_insert, List.nil_append]
  rw [save_db_merge_filter cfg w res hdb (by rw [hpd]; rfl), hpd]

theorem pr_merge_row_seven_fields_witness :
    ∃ pr, extract_pr_data samplePayload = some pr ∧
      sampleEffects.filter (isInsertTo "github_pr_merge") =
        [Effect.dbInsert "github_pr_merge" (.single (_build_pr_data_dict pr ++
          [("summary", optStr sampleResult.summary),
           ("file_path", optStr sampleResult.file_path)]))] ∧
      ((_build_pr_data_dict pr ++
          [("summary", optStr sampleResult.summary),
           ("file_path", optStr sampleResult.file_path)]).map Prod.fst =
        ["pr_number", "title", "creator", "created_at", "html_url",
         "repo_owner", "repo_name", "summary", "file_path"]) :=
  pr_merge_row_seven_fields sampleConfig sampleWorld samplePayload
    sampleResult sampleEffects sample_run rfl

/-- C6: for every accepted webhook with a database client, the
`dbt_model_changes` writes are exactly one batch insert with one row per
filtered SQL filename (each row built by `_build_dbt_model_changes_dict`
from that filename, the PR data dict and the summary) when the filtered list
is non-empty, and no write to that table when it is empty. -/
theorem model_changes_single_batch (cfg : Config) (w : World) (payload : Json)
    (res : ProcessResult) (effs : List Effect)
    (hp : process_webhook cfg w payload = .ok (some res, effs))
    (hdb : cfg.supabase_client = true) :
    (res.sql_model_files ≠ [] →
      effs.filter (isInsertTo "dbt_model_changes") =
        [Effect.dbInsert "dbt_model_changes" (.batch (res.sql_model_files.map
          (fun f => _build_dbt_model_changes_dict f res.pr_data res.summary)))]) ∧
    (res.sql_model_files = [] →
      effs.filter (isInsertTo "dbt_model_changes") = []) := by
  obtain ⟨hg, pr, hx, hacc⟩ := process_webhook_ok_some_inv cfg w payload res effs hp
  obtain ⟨l, hsql, hres, heffs⟩ := process_accepted_ok_inv cfg w pr res effs hacc
  subst heffs
  unfold acceptedEffects
  simp only [List.filter_append, fetch_no_insert, summary_no_insert,
    save_no_insert, List.nil_append]
  rw [save_db_models_filter cfg w res hdb]
  constructor
  · intro hne
    rw [if_neg (by simpa [List.isEmpty_iff] using hne)]
  · intro he
    rw [if_pos (by simp [List.isEmpty_iff, he])]

theorem model_changes_single_batch_witness :
    (sampleResult.sql_model_files ≠ [] →
      sampleEffects.filter (isInsertTo "dbt_model_changes") =
        [Effect.dbInsert "dbt_model_changes"
          (.batch (sampleResult.sql_model_files.map
            (fun f => _build_dbt_model_changes_dict f sampleResult.pr_data
              sampleResult.summary)))]) ∧
    (sampleResult.sql_model_files = [] →
      sampleEffects.filter (isInsertTo "dbt_model_changes") = []) :=
  model_changes_single_batch sampleConfig sampleWorld samplePayload
    sampleResult sampleEffects sample_run rfl

/-- C10: when a gate-passing payload's non-empty `pull_request` lacks the
`number` field, extraction still succeeds with a null `pr_number`, and that
null flows unchanged into the result's `pr_data` dict and into the
`github_pr_merge` row — nothing validates that `pr_number` is an integer. -/
theorem missing_number_null_flows (cfg : Config) (w : World) (payload : Json)
    (pr : PullRequestData) (res : ProcessResult) (effs : List Effect)
    (hx : extract_pr_data payload = some pr)
    (hnum : getField (dget payload "pull_request" (jobj [])) "number" = none)
    (hp : process_webhook cfg w payload = .ok (some res, effs))
    (hdb : cfg.supabase_client = true) :
    pr.pr_number = Json.null ∧
    rowGet res.pr_data "pr_number" = some Json.null ∧
    effs.filter (isInsertTo "github_pr_merge") =
      [Effect.dbInsert "github_pr_merge" (.single (res.pr_data ++
        [("summary", optStr res.summary), ("file_path", optStr res.file_path)]))] ∧
    rowGet (res.pr_data ++
        [("summary", optStr res.summary), ("file_path", optStr res.file_path)])
      "pr_number" = some Json.null := by
  obtain ⟨fs, g, hpay, hpr, ht, hnum2, _, _, _, _⟩ := extract_some_inv payload pr hx
  subst hpay
  simp only [dget, hpr, Option.getD_some, getField] at hnum
  rw [hnum] at hnum2
  simp only [Option.getD_none] at hnum2
  obtain ⟨hg, pr2, hx2, hacc⟩ := process_webhook_ok_some_inv cfg w _ res effs hp
  rw [hx] at hx2
  cases hx2
  obtain ⟨l, hsql, hres, heffs⟩ := process_accepted_ok_inv cfg w pr res effs hacc
  have hpd : res.pr_data = _build_pr_data_dict pr := by rw [hres]; rfl
  refine ⟨hnum2, ?_, ?_, ?_⟩
  · rw [hpd]
    simp [rowGet, _build_pr_data_dict, hnum2]
  · subst heffs
    unfold acceptedEffects
    simp only [List.filter_append, fetch_no_insert, summary_no_insert,
      save_no_insert, List.nil_append]
    exact save_db_merge_filter cfg w res hdb (by rw [hpd]; rfl)
  · rw [hpd]
    simp [rowGet, _build_pr_data_dict, hnum2, List.cons_append]

/-- `samplePayload` with the `number` field removed from `pull_request`. -/
def noNumberPayload : Json := jobj
  [("action", .str "closed"),
   ("pull_request", jobj
     [("merged", .bool true),
      ("base", jobj [("ref", .str "main")]),
      ("title", .str "Add model"),
      ("body", .str "desc"),
      ("url", .str "https://api.github.com/repos/org/repo/pulls/42"),
      ("user", jobj [("login", .str "alice")]),
      ("created_at", .str "2025-10-02T17:58:04Z"),
      ("html_url", .str "https://github.com/org/repo/pull/42")]),
   ("repository", jobj
     [("owner", jobj [("login", .str "org")]),
      ("name", .str "repo")])]

/-- The record extracted from `noNumberPayload`: `pr_number` is null. -/
def noNumberPR : PullRequestData :=
  { pr_number := Json.null
    title := .str "Add model"
    description := .str "desc"
    url := .str "https://api.github.com/repos/org/repo/pulls/42"
    creator := .str "alice"
    created_at := .str "2025-10-02T17:58:04Z"
    html_url := .str "https://github.com/org/repo/pull/42"
    repo_owner := .str "org"
    repo_name := .str "repo" }

/-- The result assembled for `noNumberPayload`. -/
def noNumberResult : ProcessResult :=
  { file_path := some "webhooks/webhook_payload_x.json"
    summary := some "A summary"
    pr_data := _build_pr_data_dict noNumberPR
    sql_model_files := ["models/a.sql"] }

/-- The effects of the `noNumberPayload` run: the fetch is issued with a null
PR number. -/
def noNumberEffects : List Effect :=
  [.githubFetch (.str "org") (.str "repo") Json.null,
   .openaiCall (.str "Add model") (.str "desc"),
   .fileSave "webhooks/webhook_payload_x.json",
   .dbInsert "github_pr_merge" (.single (_build_pr_data_dict noNumberPR ++
     [("summary", .str "A summary"),
      ("file_path", .str "webhooks/webhook_payload_x.json")])),
   .dbInsert "dbt_model_changes"
     (.batch [_build_dbt_model_changes_dict "models/a.sql"
       (_build_pr_data_dict noNumberPR) (some "A summary")])]

theorem missing_number_null_flows_witness :
    noNumberPR.pr_number = Json.null ∧
    rowGet noNumberResult.pr_data "pr_number" = some Json.null ∧
    noNumberEffects.filter (isInsertTo "github_pr_merge") =
      [Effect.dbInsert "github_pr_merge" (.single (noNumberResult.pr_data ++
        [("summary", optStr noNumberResult.summary),
         ("file_path", optStr noNumberResult.file_path)]))] ∧
    rowGet (noNumberResult.pr_data ++
        [("summary", optStr noNumberResult.summary),
         ("file_path", optStr noNumberResult.file_path)]) "pr_number" =
      some Json.null :=
  missing_number_null_flows sampleConfig sampleWorld noNumberPayload
    noNumberPR noNumberResult noNumberEffects
    (by decide) (by decide) (by decide) rfl
